import Mathlib

/-!
Shallow embedding of `evaluate_data_consistency.py`, the test-fixture
consistency validator of the TA-test repository, together with proofs
about the claims of its specification.

Modelling conventions:
* Python unbounded integers are `Nat`/`Int` with explicit `% 2^32` where the
  source masks with `0xFFFFFFFF`.
* Decimal share/amount values (`float` in the source) are modelled as `ℚ`;
  the claims under study only depend on ordering of finitely many literals.
* A `dict.get(k)` access that may return `None` is `Option String`;
  Python's f-string rendering of `None` is the literal string `"None"`.
* A Python `dict` keyed by strings is an association list with
  overwrite-on-insert semantics; lookup returns the stored value or a default.
* A file on disk is in one of three states: missing, present-but-unparseable
  (reading it raises), or parsed to a value.  Python exceptions that escape a
  function (there is no `try` around `json.load` for `meta.json`, nor around
  the CSV reads) are modelled with `Except`.
* Python's `str.upper()` is modelled as character-wise `Char.toUpper`
  (ASCII uppercasing); every string literal the source compares against is
  ASCII, where the two coincide.
-/

namespace TATest

/-- Rolling-hash accumulator update of `java_string_hashcode`:
`h = (31 * h + ord(c)) & 0xFFFFFFFF`. -/
def hashStep (h : Nat) (c : Char) : Nat :=
  (31 * h + c.toNat) % 4294967296

/-- Unsigned 32-bit accumulation loop of `java_string_hashcode`
(lines 10-12 of the source). -/
def hashLoop (s : String) : Nat :=
  s.data.foldl hashStep 0

/-- Embedding of `java_string_hashcode(s)` (source lines 9-13): the unsigned
rolling hash, then `((h + 0x80000000) & 0xFFFFFFFF) - 0x80000000`. -/
def java_string_hashcode (s : String) : Int :=
  let h := hashLoop s
  ((((h + 2147483648) % 4294967296 : Nat) : Int)) - 2147483648

/-- Embedding of `generate_acc_id(id_no)` (source lines 15-17):
`"TA" + str(abs(java_string_hashcode(id_no)))`. -/
def generate_acc_id (id_no : String) : String :=
  "TA" ++ toString (java_string_hashcode id_no).natAbs

/-- Spec-side rolling hash, written from the specification's words: starting
accumulator 0, `acc = (31*acc + code) mod 2^32` for each character in order. -/
def specHash32 (s : String) : Nat :=
  s.data.foldl (fun acc c => (31 * acc + c.toNat) % 2 ^ 32) 0

/-- Spec-side signed two's-complement reinterpretation of a 32-bit word. -/
def specSigned (h : Nat) : Int :=
  if h < 2 ^ 31 then (h : Int) else (h : Int) - 2 ^ 32

/-- Spec-side identifier: literal prefix `"TA"` concatenated with the decimal
representation of the absolute value of the signed reinterpretation. -/
def specIdentifier (s : String) : String :=
  "TA" ++ toString (specSigned (specHash32 s)).natAbs

/-- Exceptions that escape the per-case analysis in the source
(`json.load` of an unparseable `meta.json`; reading an undecodable CSV). -/
inductive PyError where
  | jsonDecodeError
  | csvReadError
deriving DecidableEq

/-- State of one file on disk: absent, present but unreadable/unparseable,
or parsed to a value. -/
inductive FState (α : Type) where
  | missing
  | malformed
  | parsed (val : α)

/-- Result of parsing `meta.json` as a JSON object; each field is present
(with a string value) or absent, mirroring `dict.get` with a default. -/
structure MetaJson where
  description : Option String
  expected_keyword : Option String
deriving DecidableEq

/-- One record of `db_snapshot/Accounts.json`; `accountId` may be absent. -/
structure AccountRec where
  accountId : Option String
deriving DecidableEq

/-- Outcome of Python `float(...)` on a field value: the field is absent
(the `dict.get` default `0` is used, giving `0.0`), present but not parseable
as a number (`float` raises), or parseable to a numeric value. -/
inductive NumVal where
  | absent
  | nonNumeric
  | numeric (q : ℚ)
deriving DecidableEq

/-- One record of `db_snapshot/Holdings.json`. -/
structure HoldRec where
  accountId : Option String
  fundCode : Option String
  availableShares : NumVal
deriving DecidableEq

/-- One row produced by `csv.DictReader`: each named field lookup yields a
string or nothing; `amount_or_shares` is carried together with the outcome of
`float` on it. -/
structure CsvRow where
  request_no : Option String
  biz_code : Option String
  investor_name : Option String
  id_no : Option String
  trans_id : Option String
  fund_code : Option String
  type : Option String
  account_id : Option String
  amount_or_shares : NumVal
deriving DecidableEq

/-- One file of the distributor inbox directory: its name and its content
(`none` when opening/decoding the file raises). -/
structure InboxFile where
  name : String
  rows : Option (List CsvRow)
deriving DecidableEq

/-- Python f-string rendering used in key construction: `None` prints as
the string `"None"`. -/
def pyStr : Option String → String
  | none => "None"
  | some s => s

/-- Containment of `needle` at the head of `hay` (character lists). -/
def leadsWith : List Char → List Char → Bool
  | [], _ => true
  | _ :: _, [] => false
  | a :: as, b :: bs => a == b && leadsWith as bs

/-- Python's substring containment `needle in hay` on character lists. -/
def occursIn (needle hay : List Char) : Bool :=
  match hay with
  | [] => leadsWith needle []
  | _ :: tl => leadsWith needle hay || occursIn needle tl

/-- Python `str.upper()` (modelled as ASCII character uppercasing). -/
def strUpper (s : String) : List Char :=
  s.data.map Char.toUpper

/-- Python `fname.startswith(p)`. -/
def pyStartsWith (s pre : String) : Bool :=
  leadsWith pre.data s.data

/-- Python `fname.endswith(suf)`. -/
def pyEndsWith (s suf : String) : Bool :=
  leadsWith suf.data.reverse s.data.reverse

/-- Python `set.add` on a set modelled as a duplicate-free list. -/
def setAdd {α : Type} [DecidableEq α] (s : List α) (a : α) : List α :=
  if a ∈ s then s else s ++ [a]

/-- Python `d[k] = v` on a string-keyed dict modelled as an association
list: overwrite in place when the key is present, append otherwise. -/
def dictInsert (m : List (String × ℚ)) (k : String) (v : ℚ) :
    List (String × ℚ) :=
  if m.any (fun p => p.1 == k) then
    m.map (fun p => if p.1 == k then (k, v) else p)
  else m ++ [(k, v)]

/-- Python `d.get(k, 0.0)` on the same dict model. -/
def dictGet (m : List (String × ℚ)) (k : String) : ℚ :=
  ((m.find? (fun p => p.1 == k)).map Prod.snd).getD 0

/-- Embedding of `TestCaseAnalyzer._load_json` (source lines 39-44): a missing
file yields the empty dict, but `json.load` of a malformed file raises —
there is no `try` in this method. -/
def load_json (f : FState MetaJson) : Except PyError MetaJson :=
  match f with
  | .missing => .ok ⟨none, none⟩
  | .malformed => .error .jsonDecodeError
  | .parsed m => .ok m

/-- Embedding of `TestCaseAnalyzer._load_db_accounts` (source lines 46-57):
missing or unparseable file yields the empty set, otherwise the set of
`accountId` values (possibly `None`). -/
def load_db_accounts (f : FState (List AccountRec)) : List (Option String) :=
  match f with
  | .missing => []
  | .malformed => []
  | .parsed recs =>
    recs.foldl (fun s a => setAdd s a.accountId) []

/-- Key construction of `_load_db_holdings` and `validate_trades`:
`f"{accountId}_{fundCode}"`. -/
def holdKey (acc fund : Option String) : String :=
  pyStr acc ++ "_" ++ pyStr fund

/-- Record-by-record body of `_load_db_holdings`: `float` raising on a record
aborts the loop, and the `except: pass` returns the map built so far. -/
def holdLoop (m : List (String × ℚ)) : List HoldRec → List (String × ℚ)
  | [] => m
  | r :: rs =>
    match r.availableShares with
    | .nonNumeric => m
    | .absent => holdLoop (dictInsert m (holdKey r.accountId r.fundCode) 0) rs
    | .numeric q => holdLoop (dictInsert m (holdKey r.accountId r.fundCode) q) rs

/-- Embedding of `TestCaseAnalyzer._load_db_holdings` (source lines 59-71). -/
def load_db_holdings (f : FState (List HoldRec)) : List (String × ℚ) :=
  match f with
  | .missing => []
  | .malformed => []
  | .parsed recs => holdLoop [] recs

/-- Keyword vocabulary of `_determine_intent` (source line 75). -/
def intentKeywords : List String :=
  ["REJECT", "FAIL", "NEGATIVE", "INSUFFICIENT", "DUPLICATE", "MISSING",
   "NOT_FOUND", "ABNORMAL", "CONFLICT", "CLOSED"]

/-- Embedding of `TestCaseAnalyzer._determine_intent` (source lines 73-91). -/
def determine_intent (case_id : String) (meta : MetaJson) : Bool :=
  if intentKeywords.any (fun k => occursIn k.data (strUpper case_id)) then
    true
  else if intentKeywords.any
      (fun k => occursIn k.data (strUpper (meta.description.getD ""))) then
    true
  else if intentKeywords.any
      (fun k => occursIn k.data (strUpper (meta.expected_keyword.getD ""))) then
    true
  else
    false

/-- Filename filter of `process_new_accounts` (source line 99):
`fname.startswith("DIST_A_ACC") and fname.endswith(".csv")`. -/
def isAccName (n : String) : Bool :=
  pyStartsWith n "DIST_A_ACC" && pyEndsWith n ".csv"

/-- Filename filter of `validate_trades` (source line 116):
`fname.startswith("DIST_A_TRADE") and fname.endswith(".csv")`. -/
def isTradeName (n : String) : Bool :=
  pyStartsWith n "DIST_A_TRADE" && pyEndsWith n ".csv"

/-- Per-row body of `process_new_accounts` (source lines 102-107): a row adds
`generate_acc_id(id_no)` exactly when `biz_code == "001"` and `id_no` is
present and truthy (non-empty). -/
def accRowStep (s : List String) (row : CsvRow) : List String :=
  if row.biz_code = some "001" then
    match row.id_no with
    | some id => if id = "" then s else setAdd s (generate_acc_id id)
    | none => s
  else s

/-- Per-file body of `process_new_accounts`: files not matching the name
filter are skipped; opening a matching undecodable file raises. -/
def accFileStep (acc : Except PyError (List String)) (f : InboxFile) :
    Except PyError (List String) :=
  match acc with
  | .error e => .error e
  | .ok s =>
    if isAccName f.name then
      match f.rows with
      | none => .error .csvReadError
      | some rows => .ok (rows.foldl accRowStep s)
    else .ok s

/-- Embedding of `TestCaseAnalyzer.process_new_accounts` (source lines
93-107); `none` models an absent inbox directory (early return). -/
def process_new_accounts (inbox : Option (List InboxFile)) :
    Except PyError (List String) :=
  match inbox with
  | none => .ok []
  | some files => files.foldl accFileStep (.ok [])

/-- Per-case counters of `TestCaseAnalyzer` (source lines 31-34;
`invalid_holding_refs` is initialised but never incremented). -/
structure Stats where
  total_txns : Nat
  invalid_acc_refs : Nat
  insufficient_shares : Nat
deriving DecidableEq

/-- Account closure used by `validate_trades` (source line 113):
`self.accounts.union(self.new_accounts)`. -/
def accountClosure (accounts : List (Option String)) (newAccounts : List String) :
    List (Option String) :=
  accounts ++ newAccounts.map some

/-- Holdings-lookup key of a trade row (source line 138):
`f"{acc_id}_{fund_code}"`. -/
def tradeKey (row : CsvRow) : String :=
  holdKey row.account_id row.fund_code

/-- Effective requested amount (source lines 125-128): `float` of the field,
with absent or non-numeric values becoming `0`. -/
def effAmount : NumVal → ℚ
  | .absent => 0
  | .nonNumeric => 0
  | .numeric q => q

/-- Per-row body of `validate_trades` (source lines 119-144): count the
transaction, check account existence against the closure, and for `REDEEM`
rows check holding sufficiency. -/
def tradeRowStep (valid : List (Option String)) (hold : List (String × ℚ))
    (s : Stats) (row : CsvRow) : Stats :=
  let s1 : Stats := { s with total_txns := s.total_txns + 1 }
  let s2 : Stats :=
    if row.account_id ∈ valid then s1
    else { s1 with invalid_acc_refs := s1.invalid_acc_refs + 1 }
  if row.type = some "REDEEM" then
    if dictGet hold (tradeKey row) < effAmount row.amount_or_shares then
      { s2 with insufficient_shares := s2.insufficient_shares + 1 }
    else s2
  else s2

/-- Per-file body of `validate_trades`: files not matching the name filter
are skipped; opening a matching undecodable file raises. -/
def tradeFileStep (valid : List (Option String)) (hold : List (String × ℚ))
    (acc : Except PyError Stats) (f : InboxFile) : Except PyError Stats :=
  match acc with
  | .error e => .error e
  | .ok s =>
    if isTradeName f.name then
      match f.rows with
      | none => .error .csvReadError
      | some rows => .ok (rows.foldl (tradeRowStep valid hold) s)
    else .ok s

/-- Embedding of `TestCaseAnalyzer.validate_trades` (source lines 109-144). -/
def validate_trades (accounts : List (Option String)) (newAccounts : List String)
    (hold : List (String × ℚ)) (inbox : Option (List InboxFile)) :
    Except PyError Stats :=
  match inbox with
  | none => .ok ⟨0, 0, 0⟩
  | some files =>
    files.foldl (tradeFileStep (accountClosure accounts newAccounts) hold)
      (.ok ⟨0, 0, 0⟩)

/-- Consistency states of `get_consistency_status`. -/
inductive ConsState where
  | CONSISTENT
  | BROKEN_LINK_ACC
  | INSUFFICIENT_HOLDING
deriving DecidableEq

/-- Embedding of `TestCaseAnalyzer.get_consistency_status` (source lines
146-153). -/
def get_consistency_status (s : Stats) : ConsState :=
  if s.invalid_acc_refs > 0 then .BROKEN_LINK_ACC
  else if s.insufficient_shares > 0 then .INSUFFICIENT_HOLDING
  else .CONSISTENT

/-- The four outcome classes of the verdict engine. -/
inductive Classification where
  | TP
  | TN
  | FP
  | FN
deriving DecidableEq

/-- Verdict branch of `analyze_all` (source lines 180-197), as a function of
the declared intent (`true` = negative case) and the consistency state. -/
def classify (is_negative : Bool) (state : ConsState) : Classification :=
  if is_negative = false then
    if state = .CONSISTENT then .TP else .FN
  else
    if state ≠ .CONSISTENT then .TN else .FP

/-- On-disk contents of one test-case directory, as read by
`TestCaseAnalyzer.__init__` and the two processing methods. -/
structure CaseInput where
  case_id : String
  metaFile : FState MetaJson
  accountsFile : FState (List AccountRec)
  holdingsFile : FState (List HoldRec)
  inbox : Option (List InboxFile)

/-- Verdict row emitted for one case. -/
structure CaseVerdict where
  case_id : String
  is_negative_case : Bool
  state : ConsState
  classification : Classification
deriving DecidableEq

/-- Per-case pipeline of `analyze_all` (source lines 173-197): construct the
analyzer (loading metadata, accounts, holdings and deriving intent), process
new accounts, validate trades, then derive state and verdict.  Any exception
escapes — `analyze_all` has no `try`. -/
def analyze_case (ci : CaseInput) : Except PyError CaseVerdict :=
  match load_json ci.metaFile with
  | .error e => .error e
  | .ok meta =>
    let accounts := load_db_accounts ci.accountsFile
    let holdings := load_db_holdings ci.holdingsFile
    let is_negative := determine_intent ci.case_id meta
    match process_new_accounts ci.inbox with
    | .error e => .error e
    | .ok newAccounts =>
      match validate_trades accounts newAccounts holdings ci.inbox with
      | .error e => .error e
      | .ok stats =>
        let state := get_consistency_status stats
        .ok ⟨ci.case_id, is_negative, state, classify is_negative state⟩

/-- Aggregate counters of `analyze_all` (source lines 163-166). -/
structure BatchTotals where
  tp : Nat
  tn : Nat
  fp : Nat
  fn : Nat
deriving DecidableEq

/-- Per-case counter increment of `analyze_all`: exactly one of the four
counters grows, matching the verdict branch. -/
def batchStep (t : BatchTotals) (v : CaseVerdict) : BatchTotals :=
  match v.classification with
  | .TP => { t with tp := t.tp + 1 }
  | .TN => { t with tn := t.tn + 1 }
  | .FP => { t with fp := t.fp + 1 }
  | .FN => { t with fn := t.fn + 1 }

/-- Embedding of the case loop of `analyze_all` (source lines 169-199): each
case is analysed in turn and an uncaught exception aborts the whole run. -/
def runCases : List CaseInput → Except PyError (List CaseVerdict)
  | [] => .ok []
  | c :: cs =>
    match analyze_case c with
    | .error e => .error e
    | .ok v =>
      match runCases cs with
      | .error e => .error e
      | .ok vs => .ok (v :: vs)

/-- Summary totals printed at source lines 202-206, accumulated over the
emitted verdict rows. -/
def batchTotals (vs : List CaseVerdict) : BatchTotals :=
  vs.foldl batchStep ⟨0, 0, 0, 0⟩

/-- Spec-side filename condition, written from the claim's glob `*ACC*.csv`:
the name contains `"ACC"` and ends with `".csv"` (the glob's trailing
`".csv"` shares no character with `"ACC"`, so containment anywhere is
equivalent to the glob). -/
def specAccGlob (n : String) : Bool :=
  occursIn "ACC".data n.data && pyEndsWith n ".csv"

/-- Spec-side vocabulary of the intent classifier, lowercase as the claim
writes it. -/
def specVocab : List String :=
  ["reject", "fail", "negative", "insufficient", "duplicate", "missing",
   "not_found", "abnormal", "conflict", "closed"]

/-- Case-insensitive substring containment, as the claim's words describe
the match. -/
def ciContains (hay pat : String) : Bool :=
  occursIn (pat.data.map Char.toUpper) (hay.data.map Char.toUpper)

/-- Spec-side intent classification: declared-negative iff some vocabulary
keyword occurs case-insensitively in the case identifier, the description, or
the expected-keyword field, checked in that order, a match in any one field
sufficing. -/
def specIsNegative (case_id : String) (meta : MetaJson) : Bool :=
  if specVocab.any (fun k => ciContains case_id k) then true
  else if specVocab.any (fun k => ciContains (meta.description.getD "") k) then
    true
  else if specVocab.any
      (fun k => ciContains (meta.expected_keyword.getD "") k) then
    true
  else false

/-- Condition under which one account-opening row contributes the identifier
`x` to the new-accounts set, read off `accRowStep`. -/
def newAccCond (r : CsvRow) (x : String) : Prop :=
  r.biz_code = some "001" ∧
    ∃ idno, r.id_no = some idno ∧ idno ≠ "" ∧ x = generate_acc_id idno

/-- Concrete REDEEM row with a non-numeric `amount_or_shares`, for claim C4. -/
def c4Row : CsvRow :=
  ⟨none, none, none, none, some "TX_1", some "F", some "REDEEM", some "A",
   NumVal.nonNumeric⟩

/-- Concrete holdings snapshot with a negative stored balance, for claim C4. -/
def c4HoldSnap : List HoldRec :=
  [⟨some "A", some "F", NumVal.numeric (-1)⟩]

/-- Concrete holdings dict for the C4 witness. -/
def w4hold : List (String × ℚ) := [("A_F", 5)]

/-- Concrete REDEEM row requesting 3 shares, for the C4 witness. -/
def w4row : CsvRow :=
  ⟨none, none, none, none, some "TX_1", some "F", some "REDEEM", some "A",
   NumVal.numeric 3⟩

/-- Concrete PURCHASE row, for the C4 witness. -/
def w4purchase : CsvRow :=
  ⟨none, none, none, none, some "TX_2", some "F", some "PURCHASE", some "A",
   NumVal.numeric 3⟩

/-- Concrete REDEEM row with non-numeric amount and a key absent from
`w4hold`, for the C4 witness. -/
def w4nn : CsvRow :=
  ⟨none, none, none, none, some "TX_3", some "F", some "REDEEM", some "B",
   NumVal.nonNumeric⟩

/-- Case whose `meta.json` exists but is unparseable, for claim C5. -/
def c5BadCase : CaseInput :=
  ⟨"TC_BAD_META", FState.malformed, FState.missing, FState.missing, none⟩

/-- Case whose snapshot files are unparseable but whose `meta.json` is fine,
for claim C5. -/
def c5OkCase : CaseInput :=
  ⟨"TC_1", FState.parsed ⟨none, none⟩, FState.malformed, FState.malformed,
   none⟩

/-- Inbox file whose name matches the glob `*ACC*.csv` but not the prefix
`DIST_A_ACC`, holding one valid opening record, for claim C6. -/
def c6File : InboxFile :=
  ⟨"X_ACC_1.csv",
   some [⟨some "R1", some "001", some "U", some "12345", none, none, none,
          none, NumVal.absent⟩]⟩

/-- Inbox with one well-formed opening file, for the C6 witness. -/
def c6wFiles : List InboxFile :=
  [⟨"DIST_A_ACC_20240101.csv",
    some [⟨some "R1", some "001", some "U", some "321", none, none, none,
           none, NumVal.absent⟩]⟩]

/-- New-accounts set produced from `c6wFiles`. -/
def c6wResult : List String := [generate_acc_id "321"]

/-- Extra opening files appended to the inbox, for the C8 witness. -/
def c8Extra : List InboxFile :=
  [⟨"DIST_A_ACC_20240102.csv",
    some [⟨some "R2", some "001", some "V", some "654", none, none, none,
           none, NumVal.absent⟩]⟩]

/-- New-accounts set produced from `c6wFiles ++ c8Extra`. -/
def c8Result : List String := [generate_acc_id "321", generate_acc_id "654"]

/-- Single trivial case (everything missing), for the C9 witness. -/
def c9Case : CaseInput :=
  ⟨"TC_1", FState.missing, FState.missing, FState.missing, none⟩

/-- Verdict rows produced from the batch `[c9Case]`. -/
def c9Verdicts : List CaseVerdict :=
  [⟨"TC_1", false, ConsState.CONSISTENT, Classification.TP⟩]

/-- Holdings snapshot in which two distinct (account, fund) pairs collide on
the same dict key, for claim C10. -/
def c10Snap : List HoldRec :=
  [⟨some "A_B", some "C", NumVal.numeric 5⟩,
   ⟨some "A", some "B_C", NumVal.numeric 7⟩]

/-- REDEEM row for the pair ("A_B", "C") requesting 6 shares, for claim
C10: its lookup reads the 7 stored for ("A", "B_C"), not the 5 stored for
("A_B", "C"). -/
def c10Row : CsvRow :=
  ⟨none, none, none, none, some "TX_1", some "C", some "REDEEM", some "A_B",
   NumVal.numeric 6⟩

theorem hashStep_lt (h : Nat) (c : Char) : hashStep h c < 4294967296 :=
  Nat.mod_lt _ (by norm_num)

theorem hashLoop_lt (s : String) : hashLoop s < 4294967296 := by
  unfold hashLoop
  have : ∀ (l : List Char) (a : Nat), a < 4294967296 →
      l.foldl hashStep a < 4294967296 := by
    intro l
    induction l with
    | nil => intro a ha; simpa using ha
    | cons c cs ih =>
      intro a _
      simpa using ih (hashStep a c) (hashStep_lt a c)
  exact this s.data 0 (by norm_num)

theorem specHash32_eq (s : String) : specHash32 s = hashLoop s := by
  unfold specHash32 hashLoop hashStep
  norm_num

theorem signed_reinterpret (h : Nat) (hlt : h < 4294967296) :
    (((h + 2147483648) % 4294967296 : Nat) : Int) - 2147483648 = specSigned h := by
  unfold specSigned
  have h31 : (2 : Nat) ^ 31 = 2147483648 := by norm_num
  by_cases hc : h < 2147483648
  · have hmod : (h + 2147483648) % 4294967296 = h + 2147483648 :=
      Nat.mod_eq_of_lt (by omega)
    rw [hmod, if_pos (show h < 2 ^ 31 by rw [h31]; exact hc)]
    push_cast
    ring
  · have h1 : 2147483648 ≤ h := by omega
    have hmod : (h + 2147483648) % 4294967296 = h - 2147483648 := by
      have h2 : h + 2147483648 = (h - 2147483648) + 1 * 4294967296 := by omega
      rw [h2, Nat.add_mul_mod_self_right]
      exact Nat.mod_eq_of_lt (by omega)
    rw [hmod, if_neg (show ¬ h < 2 ^ 31 by rw [h31]; omega)]
    push_cast [h1]
    ring

/-- C1: for every identity-document string, `generate_acc_id` returns the
literal prefix `"TA"` concatenated with the decimal representation of the
absolute value of the signed two's-complement reinterpretation of the 32-bit
rolling hash (accumulator starting at 0, `acc = (31*acc + code) mod 2^32` per
character in order). -/
theorem C1_identifier_deriver (s : String) :
    generate_acc_id s = specIdentifier s := by
  unfold generate_acc_id specIdentifier java_string_hashcode
  rw [specHash32_eq, signed_reinterpret (hashLoop s) (hashLoop_lt s)]

/-- C2: the consistency state is derived by first-match priority —
`BROKEN_LINK_ACC` when `invalid_acc_refs > 0`, else `INSUFFICIENT_HOLDING`
when `insufficient_shares > 0`, else `CONSISTENT`; with both counters
positive the state is `BROKEN_LINK_ACC`, never `INSUFFICIENT_HOLDING`. -/
theorem C2_consistency_priority (s : Stats) :
    (s.invalid_acc_refs > 0 →
      get_consistency_status s = ConsState.BROKEN_LINK_ACC) ∧
    (s.invalid_acc_refs = 0 → s.insufficient_shares > 0 →
      get_consistency_status s = ConsState.INSUFFICIENT_HOLDING) ∧
    (s.invalid_acc_refs = 0 → s.insufficient_shares = 0 →
      get_consistency_status s = ConsState.CONSISTENT) ∧
    (s.invalid_acc_refs > 0 → s.insufficient_shares > 0 →
      get_consistency_status s = ConsState.BROKEN_LINK_ACC ∧
        get_consistency_status s ≠ ConsState.INSUFFICIENT_HOLDING) := by
  refine ⟨fun h => ?_, fun h0 h1 => ?_, fun h0 h1 => ?_, fun h _ => ?_⟩
  · simp [get_consistency_status, h]
  · simp [get_consistency_status, h0, h1]
  · simp [get_consistency_status, h0, h1]
  · simp [get_consistency_status, h]

theorem C2_consistency_priority_witness :
    get_consistency_status ⟨5, 2, 3⟩ = ConsState.BROKEN_LINK_ACC ∧
    get_consistency_status ⟨5, 0, 3⟩ = ConsState.INSUFFICIENT_HOLDING ∧
    get_consistency_status ⟨5, 0, 0⟩ = ConsState.CONSISTENT ∧
    (get_consistency_status ⟨5, 2, 3⟩ = ConsState.BROKEN_LINK_ACC ∧
      get_consistency_status ⟨5, 2, 3⟩ ≠ ConsState.INSUFFICIENT_HOLDING) :=
  ⟨(C2_consistency_priority ⟨5, 2, 3⟩).1 (by decide),
   (C2_consistency_priority ⟨5, 0, 3⟩).2.1 (by decide) (by decide),
   (C2_consistency_priority ⟨5, 0, 0⟩).2.2.1 (by decide) (by decide),
   (C2_consistency_priority ⟨5, 2, 3⟩).2.2.2 (by decide) (by decide)⟩

/-- C3: the classification is this function of (declared_intent,
consistency_state): (positive, CONSISTENT) ↦ TP; (positive, other) ↦ FN;
(negative, other) ↦ TN; (negative, CONSISTENT) ↦ FP.  Here `true` encodes a
declared-negative case, as in the source's `is_negative_case`. -/
theorem C3_verdict_mapping (state : ConsState) :
    classify false ConsState.CONSISTENT = Classification.TP ∧
    (state ≠ ConsState.CONSISTENT → classify false state = Classification.FN) ∧
    (state ≠ ConsState.CONSISTENT → classify true state = Classification.TN) ∧
    classify true ConsState.CONSISTENT = Classification.FP := by
  refine ⟨rfl, fun h => ?_, fun h => ?_, rfl⟩
  · simp [classify, h]
  · simp [classify, h]

theorem C3_verdict_mapping_witness :
    classify false ConsState.CONSISTENT = Classification.TP ∧
    classify false ConsState.BROKEN_LINK_ACC = Classification.FN ∧
    classify true ConsState.BROKEN_LINK_ACC = Classification.TN ∧
    classify true ConsState.CONSISTENT = Classification.FP :=
  ⟨(C3_verdict_mapping ConsState.BROKEN_LINK_ACC).1,
   (C3_verdict_mapping ConsState.BROKEN_LINK_ACC).2.1 (by decide),
   (C3_verdict_mapping ConsState.BROKEN_LINK_ACC).2.2.1 (by decide),
   (C3_verdict_mapping ConsState.BROKEN_LINK_ACC).2.2.2⟩

/-- C5 (code behaviour at the failing input): a `meta.json` that exists but
cannot be parsed raises out of `_load_json` — there is no `try` around it —
so the case analysis aborts with an exception instead of emitting a verdict
row; an undecodable inbox CSV likewise raises out of `process_new_accounts`;
by contrast, unparseable snapshot files degrade to empty collections and the
verdict row is still produced. -/
theorem C5_malformed_meta_aborts :
    analyze_case c5BadCase = Except.error PyError.jsonDecodeError ∧
    analyze_case ⟨"TC_2", FState.missing, FState.missing, FState.missing,
      some [⟨"DIST_A_ACC_1.csv", none⟩]⟩ =
      Except.error PyError.csvReadError ∧
    load_db_accounts c5OkCase.accountsFile = [] ∧
    load_db_holdings c5OkCase.holdingsFile = [] ∧
    analyze_case c5OkCase =
      Except.ok ⟨"TC_1", false, ConsState.CONSISTENT, Classification.TP⟩ := by
  refine ⟨rfl, rfl, rfl, rfl, rfl⟩

/-- C10: the holdings dict is keyed by `accountId + "_" + fundCode`, so the
distinct pairs ("A_B", "C") and ("A", "B_C") collide; loading both makes the
later entry overwrite the earlier, and a REDEEM sufficiency lookup for
("A_B", "C") reads the balance stored for ("A", "B_C") — here 7 instead of
5, so a request of 6 is judged sufficient. -/
theorem C10_holdings_key_collision :
    (some "A_B", some "C") ≠ ((some "A", some "B_C") :
      Option String × Option String) ∧
    holdKey (some "A_B") (some "C") = holdKey (some "A") (some "B_C") ∧
    load_db_holdings (FState.parsed c10Snap) = [("A_B_C", 7)] ∧
    dictGet (load_db_holdings (FState.parsed c10Snap))
      (holdKey (some "A_B") (some "C")) = 7 ∧
    c10Row.type = some "REDEEM" ∧
    tradeKey c10Row = holdKey (some "A_B") (some "C") ∧
    (tradeRowStep [some "A_B"] (load_db_holdings (FState.parsed c10Snap))
      ⟨0, 0, 0⟩ c10Row).insufficient_shares = 0 := by
  refine ⟨by decide, rfl, by decide, by decide, rfl, rfl, by decide⟩

/-- C4 (counterexample): a REDEEM row whose `amount_or_shares` is
non-numeric is treated as requesting 0 shares, yet it still increments
`insufficient_shares` when the stored balance at its key is negative —
refuting "a non-numeric amount_or_shares field ... never increments
insufficient_shares". -/
theorem C4_nonnumeric_counterexample :
    c4Row.amount_or_shares = NumVal.nonNumeric ∧
    c4Row.type = some "REDEEM" ∧
    load_db_holdings (FState.parsed c4HoldSnap) = [("A_F", -1)] ∧
    validate_trades [some "A"] [] (load_db_holdings (FState.parsed c4HoldSnap))
      (some [⟨"DIST_A_TRADE_1.csv", some [c4Row]⟩]) =
      Except.ok ⟨1, 0, 1⟩ := by
  refine ⟨rfl, rfl, by decide, rfl⟩

/-- C4 (amended): the sufficiency check runs exactly when `type = "REDEEM"`;
the balance is looked up at the (account, fund) key with a missing entry
treated as zero; a non-numeric `amount_or_shares` is treated as zero and so
never increments `insufficient_shares` unless the stored balance is negative;
the counter is incremented exactly when `available < requested`; and rows of
any other type (e.g. PURCHASE) are never checked against holdings. -/
theorem C4_sufficiency_check (valid : List (Option String))
    (hold : List (String × ℚ)) (s : Stats) (row : CsvRow) :
    (row.type = some "REDEEM" →
      (tradeRowStep valid hold s row).insufficient_shares =
        s.insufficient_shares +
          (if dictGet hold (tradeKey row) < effAmount row.amount_or_shares
           then 1 else 0)) ∧
    (row.type ≠ some "REDEEM" →
      (tradeRowStep valid hold s row).insufficient_shares =
        s.insufficient_shares) ∧
    (row.type = some "PURCHASE" → ∀ hold' : List (String × ℚ),
      tradeRowStep valid hold' s row = tradeRowStep valid hold s row) ∧
    (tradeKey row ∉ hold.map Prod.fst → dictGet hold (tradeKey row) = 0) ∧
    (row.amount_or_shares = NumVal.nonNumeric →
      effAmount row.amount_or_shares = 0) ∧
    (row.amount_or_shares = NumVal.nonNumeric →
      0 ≤ dictGet hold (tradeKey row) →
      (tradeRowStep valid hold s row).insufficient_shares =
        s.insufficient_shares) := by
  refine ⟨fun h => ?_, fun h => ?_, fun h hold' => ?_, fun h => ?_,
    fun h => ?_, fun h h0 => ?_⟩
  · by_cases hm : row.account_id ∈ valid <;>
      by_cases hlt : dictGet hold (tradeKey row) < effAmount row.amount_or_shares <;>
      simp [tradeRowStep, h, hm, hlt]
  · by_cases hm : row.account_id ∈ valid <;> simp [tradeRowStep, h, hm]
  · have hne : row.type ≠ some "REDEEM" := by rw [h]; decide
    simp [tradeRowStep, hne]
  · unfold dictGet
    have hnone : hold.find? (fun p => p.1 == tradeKey row) = none := by
      rw [List.find?_eq_none]
      intro p hp
      simp only [beq_iff_eq]
      intro hk
      exact h (List.mem_map.mpr ⟨p, hp, hk⟩)
    rw [hnone]
    rfl
  · rw [h]; rfl
  · by_cases hr : row.type = some "REDEEM"
    · have hlt : ¬ dictGet hold (tradeKey row) < effAmount row.amount_or_shares := by
        rw [h]
        exact not_lt.mpr h0
      by_cases hm : row.account_id ∈ valid <;> simp [tradeRowStep, hr, hm, hlt]
    · by_cases hm : row.account_id ∈ valid <;> simp [tradeRowStep, hr, hm]

theorem C4_sufficiency_check_witness :
    ((tradeRowStep [] w4hold ⟨0, 0, 0⟩ w4row).insufficient_shares =
      (⟨0, 0, 0⟩ : Stats).insufficient_shares +
        (if dictGet w4hold (tradeKey w4row) < effAmount w4row.amount_or_shares
         then 1 else 0)) ∧
    ((tradeRowStep [] w4hold ⟨0, 0, 0⟩ w4purchase).insufficient_shares =
      (⟨0, 0, 0⟩ : Stats).insufficient_shares) ∧
    (tradeRowStep [] [] ⟨0, 0, 0⟩ w4purchase =
      tradeRowStep [] w4hold ⟨0, 0, 0⟩ w4purchase) ∧
    (dictGet w4hold (tradeKey w4nn) = 0) ∧
    (effAmount w4nn.amount_or_shares = 0) ∧
    ((tradeRowStep [] w4hold ⟨0, 0, 0⟩ w4nn).insufficient_shares =
      (⟨0, 0, 0⟩ : Stats).insufficient_shares) :=
  ⟨(C4_sufficiency_check [] w4hold ⟨0, 0, 0⟩ w4row).1 rfl,
   (C4_sufficiency_check [] w4hold ⟨0, 0, 0⟩ w4purchase).2.1 (by decide),
   (C4_sufficiency_check [] w4hold ⟨0, 0, 0⟩ w4purchase).2.2.1 rfl [],
   (C4_sufficiency_check [] w4hold ⟨0, 0, 0⟩ w4nn).2.2.2.1 (by decide),
   (C4_sufficiency_check [] w4hold ⟨0, 0, 0⟩ w4nn).2.2.2.2.1 rfl,
   (C4_sufficiency_check [] w4hold ⟨0, 0, 0⟩ w4nn).2.2.2.2.2 rfl (by decide)⟩

theorem mem_setAdd {α : Type} [DecidableEq α] (s : List α) (a x : α) :
    x ∈ setAdd s a ↔ x ∈ s ∨ x = a := by
  unfold setAdd
  by_cases h : a ∈ s
  · simp only [if_pos h]
    constructor
    · exact fun hx => Or.inl hx
    · rintro (hx | rfl)
      · exact hx
      · exact h
  · simp only [if_neg h, List.mem_append, List.mem_singleton]

theorem mem_accRowStep (s : List String) (r : CsvRow) (x : String) :
    x ∈ accRowStep s r ↔ x ∈ s ∨ newAccCond r x := by
  unfold accRowStep newAccCond
  by_cases hb : r.biz_code = some "001"
  · simp only [if_pos hb]
    cases hid : r.id_no with
    | none => simp [hb, hid]
    | some i =>
      by_cases he : i = ""
      · subst he
        simp [hb, hid]
      · simp [mem_setAdd, hb, hid, he]
  · simp [hb]

theorem mem_foldl_accRowStep (rows : List CsvRow) (s : List String)
    (x : String) :
    x ∈ rows.foldl accRowStep s ↔ x ∈ s ∨ ∃ r ∈ rows, newAccCond r x := by
  induction rows generalizing s with
  | nil => simp
  | cons r rs ih =>
    rw [List.foldl_cons, ih, mem_accRowStep]
    constructor
    · rintro ((hx | hc) | ⟨r', hr', hc'⟩)
      · exact Or.inl hx
      · exact Or.inr ⟨r, List.mem_cons_self r rs, hc⟩
      · exact Or.inr ⟨r', List.mem_cons_of_mem r hr', hc'⟩
    · rintro (hx | ⟨r', hr', hc'⟩)
      · exact Or.inl (Or.inl hx)
      · rcases List.mem_cons.mp hr' with rfl | hr'
        · exact Or.inl (Or.inr hc')
        · exact Or.inr ⟨r', hr', hc'⟩

theorem foldl_accFileStep_error (files : List InboxFile) (e : PyError) :
    files.foldl accFileStep (Except.error e) = Except.error e := by
  induction files with
  | nil => rfl
  | cons f fs ih =>
    rw [List.foldl_cons]
    exact ih

/-- Condition under which an inbox file contributes identifier `x`, read off
`accFileStep`. -/
theorem processFiles_mem (files : List InboxFile) (s l : List String)
    (x : String) (h : files.foldl accFileStep (Except.ok s) = Except.ok l) :
    x ∈ l ↔ x ∈ s ∨ ∃ f ∈ files, isAccName f.name = true ∧
      ∃ rows, f.rows = some rows ∧ ∃ r ∈ rows, newAccCond r x := by
  induction files generalizing s with
  | nil =>
    simp only [List.foldl_nil, Except.ok.injEq] at h
    subst h
    simp
  | cons f fs ih =>
    rw [List.foldl_cons] at h
    by_cases hn : isAccName f.name
    · cases hr : f.rows with
      | none =>
        have hstep : accFileStep (Except.ok s) f = Except.error .csvReadError := by
          simp [accFileStep, hn, hr]
        rw [hstep, foldl_accFileStep_error] at h
        cases h
      | some rows =>
        have hstep : accFileStep (Except.ok s) f =
            Except.ok (rows.foldl accRowStep s) := by
          simp [accFileStep, hn, hr]
        rw [hstep] at h
        rw [ih _ h, mem_foldl_accRowStep]
        constructor
        · rintro ((hx | ⟨r, hrr, hc⟩) | ⟨f', hf', hrest⟩)
          · exact Or.inl hx
          · exact Or.inr ⟨f, List.mem_cons_self f fs, hn, rows, hr, r, hrr, hc⟩
          · exact Or.inr ⟨f', List.mem_cons_of_mem f hf', hrest⟩
        · rintro (hx | ⟨f', hf', hn', rows', hr', hrest'⟩)
          · exact Or.inl (Or.inl hx)
          · rcases List.mem_cons.mp hf' with rfl | hf'
            · rw [hr] at hr'
              cases hr'
              exact Or.inl (Or.inr hrest')
            · exact Or.inr ⟨f', hf', hn', rows', hr', hrest'⟩
    · have hstep : accFileStep (Except.ok s) f = Except.ok s := by
        simp [accFileStep, hn]
      rw [hstep] at h
      rw [ih _ h]
      constructor
      · rintro (hx | ⟨f', hf', hrest⟩)
        · exact Or.inl hx
        · exact Or.inr ⟨f', List.mem_cons_of_mem f hf', hrest⟩
      · rintro (hx | ⟨f', hf', hrest⟩)
        · exact Or.inl hx
        · rcases List.mem_cons.mp hf' with rfl | hf'
          · exact absurd hrest.1 (by simpa using hn)
          · exact Or.inr ⟨f', hf', hrest⟩

/-- C6 (counterexample): the file `X_ACC_1.csv` matches the claim's glob
`*ACC*.csv` and contains a record with `biz_code = "001"` and a non-empty
`id_no`, yet `process_new_accounts` contributes nothing from it, because the
source only reads files whose names start with `DIST_A_ACC`; moreover a
well-named file whose `biz_code = "001"` record carries an empty `id_no`
also contributes nothing, although the claim demands its derived identifier
`"TA0"` be added. -/
theorem C6_glob_counterexample :
    specAccGlob c6File.name = true ∧
    isAccName c6File.name = false ∧
    (∃ rows, c6File.rows = some rows ∧
      ∃ r ∈ rows, newAccCond r (generate_acc_id "12345")) ∧
    process_new_accounts (some [c6File]) = Except.ok [] ∧
    generate_acc_id "" = "TA0" ∧
    process_new_accounts (some [⟨"DIST_A_ACC_1.csv",
      some [⟨some "R1", some "001", some "U", some "", none, none, none,
             none, NumVal.absent⟩]⟩]) = Except.ok [] := by
  refine ⟨by decide, by decide, ?_, rfl, rfl, rfl⟩
  refine ⟨_, rfl, ⟨_, List.mem_singleton.mpr rfl, rfl, "12345", rfl,
    by decide, rfl⟩⟩

/-- C6 (amended): the builder scans exactly the inbox files whose names
start with `DIST_A_ACC` and end with `.csv`; a record of such a file adds
the identifier derived from its `id_no` exactly when `biz_code = "001"` and
`id_no` is present and non-empty, independent of the record's remaining
fields; records with any other business code contribute nothing. -/
theorem C6_account_closure_builder (files : List InboxFile)
    (l : List String) (x : String)
    (h : process_new_accounts (some files) = Except.ok l) :
    (x ∈ l ↔ ∃ f ∈ files, isAccName f.name = true ∧
      ∃ rows, f.rows = some rows ∧ ∃ r ∈ rows, newAccCond r x) ∧
    (∀ (s : List String) (r r' : CsvRow), r.biz_code = r'.biz_code →
      r.id_no = r'.id_no → accRowStep s r = accRowStep s r') := by
  constructor
  · have hmem := processFiles_mem files [] l x h
    simpa using hmem
  · intro s r r' hb hi
    unfold accRowStep
    rw [hb, hi]

theorem C6_account_closure_builder_witness :
    ((generate_acc_id "321" ∈ c6wResult) ↔ ∃ f ∈ c6wFiles,
      isAccName f.name = true ∧ ∃ rows, f.rows = some rows ∧
        ∃ r ∈ rows, newAccCond r (generate_acc_id "321")) ∧
    (∀ (s : List String) (r r' : CsvRow), r.biz_code = r'.biz_code →
      r.id_no = r'.id_no → accRowStep s r = accRowStep s r') :=
  C6_account_closure_builder c6wFiles c6wResult (generate_acc_id "321") rfl

theorem keyword_lists_agree (s : String) :
    intentKeywords.any (fun k => occursIn k.data (strUpper s)) =
      specVocab.any (fun k => ciContains s k) := by
  simp only [intentKeywords, specVocab, List.any_cons, List.any_nil,
    ciContains, strUpper]
  rw [show ("reject".data.map Char.toUpper) = "REJECT".data by decide,
    show ("fail".data.map Char.toUpper) = "FAIL".data by decide,
    show ("negative".data.map Char.toUpper) = "NEGATIVE".data by decide,
    show ("insufficient".data.map Char.toUpper) = "INSUFFICIENT".data by decide,
    show ("duplicate".data.map Char.toUpper) = "DUPLICATE".data by decide,
    show ("missing".data.map Char.toUpper) = "MISSING".data by decide,
    show ("not_found".data.map Char.toUpper) = "NOT_FOUND".data by decide,
    show ("abnormal".data.map Char.toUpper) = "ABNORMAL".data by decide,
    show ("conflict".data.map Char.toUpper) = "CONFLICT".data by decide,
    show ("closed".data.map Char.toUpper) = "CLOSED".data by decide]

/-- C7: a case is classified declared-negative exactly when some keyword of
the fixed vocabulary occurs case-insensitively as a substring of the case
identifier, the metadata description, or the expected-keyword field, checked
in that order with a match in any one field sufficing; otherwise it is
declared-positive. -/
theorem C7_intent_classifier (case_id : String) (meta : MetaJson) :
    determine_intent case_id meta = specIsNegative case_id meta := by
  unfold determine_intent specIsNegative
  rw [keyword_lists_agree case_id,
    keyword_lists_agree (meta.description.getD ""),
    keyword_lists_agree (meta.expected_keyword.getD "")]

/-- C8: the account closure used by the transaction validator contains the
whole account snapshot, and appending further opening-request files to the
inbox never removes an identifier from the closure. -/
theorem C8_closure_monotone (snapshot : List (Option String))
    (files extra : List InboxFile) (l l' : List String)
    (h : process_new_accounts (some files) = Except.ok l)
    (h' : process_new_accounts (some (files ++ extra)) = Except.ok l') :
    (∀ x ∈ snapshot, x ∈ accountClosure snapshot l) ∧
    (∀ x ∈ accountClosure snapshot l, x ∈ accountClosure snapshot l') := by
  unfold accountClosure
  constructor
  · intro x hx
    exact List.mem_append.mpr (Or.inl hx)
  · intro x hx
    rcases List.mem_append.mp hx with hx | hx
    · exact List.mem_append.mpr (Or.inl hx)
    · rcases List.mem_map.mp hx with ⟨y, hy, rfl⟩
      refine List.mem_append.mpr (Or.inr (List.mem_map.mpr ⟨y, ?_, rfl⟩))
      have hc := processFiles_mem files [] l y h
      have hc' := processFiles_mem (files ++ extra) [] l' y h'
      rcases hc.mp hy with h0 | ⟨f, hf, hrest⟩
      · cases h0
      · exact hc'.mpr (Or.inr ⟨f, List.mem_append.mpr (Or.inl hf), hrest⟩)

theorem C8_closure_monotone_witness :
    some "TA1" ∈ accountClosure [some "TA1"] c6wResult ∧
    some (generate_acc_id "321") ∈ accountClosure [some "TA1"] c8Result :=
  ⟨(C8_closure_monotone [some "TA1"] c6wFiles c8Extra c6wResult c8Result
      rfl rfl).1 (some "TA1") (List.mem_singleton.mpr rfl),
   (C8_closure_monotone [some "TA1"] c6wFiles c8Extra c6wResult c8Result
      rfl rfl).2 (some (generate_acc_id "321")) (by decide)⟩

theorem batchStep_sum (t : BatchTotals) (v : CaseVerdict) :
    (batchStep t v).tp + (batchStep t v).tn + (batchStep t v).fp +
      (batchStep t v).fn = t.tp + t.tn + t.fp + t.fn + 1 := by
  unfold batchStep
  cases v.classification <;> simp <;> omega

theorem foldl_batchStep_sum (vs : List CaseVerdict) (t : BatchTotals) :
    (vs.foldl batchStep t).tp + (vs.foldl batchStep t).tn +
      (vs.foldl batchStep t).fp + (vs.foldl batchStep t).fn =
      t.tp + t.tn + t.fp + t.fn + vs.length := by
  induction vs generalizing t with
  | nil => simp
  | cons v vs ih =>
    rw [List.foldl_cons, ih (batchStep t v), batchStep_sum]
    simp
    omega

theorem runCases_length (batch : List CaseInput) (vs : List CaseVerdict)
    (h : runCases batch = Except.ok vs) : vs.length = batch.length := by
  induction batch generalizing vs with
  | nil =>
    unfold runCases at h
    cases h
    rfl
  | cons c cs ih =>
    unfold runCases at h
    cases hv : analyze_case c with
    | error e => rw [hv] at h; cases h
    | ok v =>
      rw [hv] at h
      cases hr : runCases cs with
      | error e => rw [hr] at h; cases h
      | ok vs' =>
        rw [hr] at h
        cases h
        simp [ih vs' hr]

/-- C9: every processed case increments exactly one of the four
classification counters, so TP + TN + FP + FN equals the number of verdict
rows, which equals the number of cases processed. -/
theorem C9_classification_totals (batch : List CaseInput)
    (vs : List CaseVerdict) (h : runCases batch = Except.ok vs) :
    (batchTotals vs).tp + (batchTotals vs).tn + (batchTotals vs).fp +
        (batchTotals vs).fn = vs.length ∧
      vs.length = batch.length := by
  constructor
  · unfold batchTotals
    rw [foldl_batchStep_sum]
    simp
  · exact runCases_length batch vs h

theorem C9_classification_totals_witness :
    (batchTotals c9Verdicts).tp + (batchTotals c9Verdicts).tn +
        (batchTotals c9Verdicts).fp + (batchTotals c9Verdicts).fn =
        c9Verdicts.length ∧
      c9Verdicts.length = [c9Case].length :=
  C9_classification_totals [c9Case] c9Verdicts rfl

end TATest
